import Mathlib

/-!
# Verification of `netmon.py` (robert-osoelectronics/netmon)

A shallow embedding of the core of `netmon.py`: the `NetworkMonitor` class,
its two worker loops (`ping_worker`, `speedtest_worker`), the gated probe
methods (`get_ping_stats`, `get_speed_test`), the sink writer
(`write_to_influx`) and the collector loop in `run`, together with the
`queue.Queue` instance that connects them.

Timestamps (`datetime.now()`) and measured values are modelled as rationals.
External calls (`ping3.ping`, the speedtest methods, `influx_client.write`)
are modelled by outcome parameters: each embedded method takes the outcome
the external world would produce and returns the value, the updated object
state and the list of observable events the call performs.
-/

namespace Netmon

/-- Timestamps and durations, in seconds (from `datetime.now()` /
`total_seconds()`). -/
abbrev Time := ℚ

/-- `PING_INTERVAL = 10` (netmon.py line 51). -/
def PING_INTERVAL : ℚ := 10

/-- `SPEEDTEST_INTERVAL = 60` (netmon.py line 52). -/
def SPEEDTEST_INTERVAL : ℚ := 60

/-! ## The sample channel: Python's `queue.Queue`

`NetworkMonitor.__init__` constructs `self.metric_queue = Queue()`
(line 135).  `Queue()` takes Python's default `maxsize=0`, and in
`queue.Queue` a `maxsize <= 0` means the queue is *unbounded*: `put` always
appends at the tail and never blocks or drops.  `get` removes from the head
(FIFO). -/

/-- A Python `queue.Queue`: the `maxsize` given to the constructor and the
buffered items, head first. -/
structure PyQueue (α : Type) where
  maxsize : Nat
  items : List α
deriving DecidableEq, Repr

/-- `Queue.put`: appends at the tail.  The program's only queue has
`maxsize = 0` (unbounded), for which `put` never blocks and never drops. -/
def PyQueue.put {α : Type} (q : PyQueue α) (x : α) : PyQueue α :=
  { q with items := q.items ++ [x] }

/-- `Queue.get`: removes and returns the head item; `none` models the
`Empty` exception raised when the timeout elapses on an empty queue. -/
def PyQueue.get {α : Type} : PyQueue α → Option (α × PyQueue α)
  | ⟨_, []⟩ => none
  | ⟨m, x :: xs⟩ => some (x, ⟨m, xs⟩)

/-- The contents a consumer obtains by calling `get` until `Empty`:
the buffered items in FIFO order. -/
def PyQueue.drain {α : Type} (q : PyQueue α) : List α := q.items

/-- Producing a batch of samples with no consumer draining: each sample is
`put` in turn. -/
def produceAll {α : Type} (q : PyQueue α) (xs : List α) : PyQueue α :=
  xs.foldl PyQueue.put q

/-! ## Data model -/

/-- A tagged sample on the metric queue: `('ping', ping_time)` from
`ping_worker` (line 205) or `('speed', (download_speed, upload_speed))`
from `speedtest_worker` (line 221). -/
inductive Metric
  | ping (ping_time : ℚ)
  | speed (download_speed upload_speed : ℚ)
deriving DecidableEq, Repr

/-- Whether a sample was emitted by the ping worker. -/
def Metric.isPing : Metric → Bool
  | .ping _ => true
  | .speed _ _ => false

/-- Whether a sample was emitted by the speedtest worker. -/
def Metric.isSpeed : Metric → Bool
  | .ping _ => false
  | .speed _ _ => true

/-- An InfluxDB `Point`: the measurement name passed to `Point(...)` and
the fields added by `.field(...)`, in order. -/
structure Point where
  measurement : String
  fields : List (String × ℚ)
deriving DecidableEq, Repr

/-- `point.field(name, value)` appends one named field. -/
def Point.field (p : Point) (name : String) (v : ℚ) : Point :=
  { p with fields := p.fields ++ [(name, v)] }

/-- The mutable state of a `NetworkMonitor` object that the core loop
touches: `last_ping`, `last_speedtest` (lines 131-132), `metric_queue`
(line 135) and `running` (line 140). -/
structure NetworkMonitor where
  last_ping : Option Time
  last_speedtest : Option Time
  metric_queue : PyQueue Metric
  running : Bool
deriving DecidableEq, Repr

/-- The state right after `__init__`: no previous probe timestamps, empty
unbounded queue, `running = False`. -/
def monitorInit : NetworkMonitor := ⟨none, none, ⟨0, []⟩, false⟩

/-- The state right after `run` sets `self.running = True` (line 231). -/
def monitorStart : NetworkMonitor := { monitorInit with running := true }

/-- Observable events of one step of the system. -/
inductive Event
  | probePing                -- `ping3.ping(PING_TARGET)` is invoked (line 148)
  | probeSpeed               -- the speedtest measurement is invoked (lines 188-190)
  | enqueue (m : Metric)     -- `self.metric_queue.put(...)` (lines 205, 221)
  | deliver (m : Metric)     -- `self.metric_queue.get(...)` returns a sample (line 244)
  | sinkWrite (p : Point)    -- `self.influx_client.write(...)` is called (line 173)
  | errorLog                 -- `logging.error(...)` runs
deriving DecidableEq, Repr

/-- The samples enqueued during a list of events, in order. -/
def enqueuedOf (evs : List Event) : List Metric :=
  evs.filterMap fun e => match e with | .enqueue m => some m | _ => none

/-- The samples the collector received during a list of events, in order. -/
def deliveredOf (evs : List Event) : List Metric :=
  evs.filterMap fun e => match e with | .deliver m => some m | _ => none

/-- The sink write calls issued during a list of events, in order. -/
def writesOf (evs : List Event) : List Point :=
  evs.filterMap fun e => match e with | .sinkWrite p => some p | _ => none

/-- Whether an event is a `logging.error` line. -/
def Event.isErrorLog : Event → Bool
  | .errorLog => true
  | _ => false

/-- The number of `logging.error` lines among a list of events. -/
def errorLogsOf (evs : List Event) : Nat :=
  (evs.filter Event.isErrorLog).length

/-! ## Probe methods -/

/-- The interval gate of `get_ping_stats` (lines 146-147):
`self.last_ping is None or (now - self.last_ping).total_seconds() >= PING_INTERVAL`. -/
def pingGateOpen (last_ping : Option Time) (now : Time) : Bool :=
  match last_ping with
  | none => true
  | some lp => decide (PING_INTERVAL ≤ now - lp)

/-- The interval gate of `get_speed_test` (lines 185-186). -/
def speedGateOpen (last_speedtest : Option Time) (now : Time) : Bool :=
  match last_speedtest with
  | none => true
  | some ls => decide (SPEEDTEST_INTERVAL ≤ now - ls)

/-- Outcome of the external call `ping3.ping(PING_TARGET)`:
`.ok (some s)` = a reply, round trip `s` seconds; `.ok none` = `ping3`
returned `None` (timeout), so `None * 1000` raises `TypeError`;
`.error ()` = `ping3.ping` itself raised. -/
abbrev PingOutcome := Except Unit (Option ℚ)

/-- Outcome of `get_best_server(); download(); upload()` as a whole:
`.ok (d, u)` = speeds in bits/second, `.error ()` = some call raised. -/
abbrev SpeedOutcome := Except Unit (ℚ × ℚ)

/-- `NetworkMonitor.get_ping_stats` (lines 142-154).  Inside a catch-all
`try`: if the gate is open, call `ping3.ping`, multiply by 1000, assign
`self.last_ping = now` and return the value in milliseconds; if the gate is
closed, return `None`.  Any exception is logged and `None` returned; the
`self.last_ping = now` assignment (line 149) happens only after the
measurement expression (line 148) completed without raising. -/
def get_ping_stats (self : NetworkMonitor) (now : Time) (outcome : PingOutcome) :
    Option ℚ × NetworkMonitor × List Event :=
  if pingGateOpen self.last_ping now then
    match outcome with
    | .ok (some rtt) => (some (rtt * 1000), { self with last_ping := some now }, [.probePing])
    | .ok none => (none, self, [.probePing, .errorLog])
    | .error _ => (none, self, [.probePing, .errorLog])
  else
    (none, self, [])

/-- `NetworkMonitor.get_speed_test` (lines 181-196).  Same shape: the
`self.last_speedtest = now` assignment (line 191) happens only after all
three measurement calls completed without raising. -/
def get_speed_test (self : NetworkMonitor) (now : Time) (outcome : SpeedOutcome) :
    (Option ℚ × Option ℚ) × NetworkMonitor × List Event :=
  if speedGateOpen self.last_speedtest now then
    match outcome with
    | .ok (d, u) => ((some d, some u), { self with last_speedtest := some now }, [.probeSpeed])
    | .error _ => ((none, none), self, [.probeSpeed, .errorLog])
  else
    ((none, none), self, [])

/-! ## The sink writer -/

/-- The result of one `write_to_influx` call: the write calls issued to
`self.influx_client.write`, the events performed, and whether an exception
escaped the method. -/
structure WriteResult where
  writeCalls : List Point
  events : List Event
  raised : Bool
deriving DecidableEq, Repr

/-- `NetworkMonitor.write_to_influx` (lines 156-179).  A point is built and
written only if at least one argument is not `None`; each present argument
contributes its field in source order.  `sinkFails` is the outcome of the
external `influx_client.write` call; a failure is caught by the method's
catch-all handler and logged, so the method never raises. -/
def write_to_influx (ping_time download_speed upload_speed : Option ℚ)
    (sinkFails : Bool) : WriteResult :=
  if ping_time.isSome || download_speed.isSome || upload_speed.isSome then
    let point := Point.mk "network_metrics" []
    let point := match ping_time with
      | some v => point.field "ping_ms" v
      | none => point
    let point := match download_speed with
      | some v => point.field "download_speed" v
      | none => point
    let point := match upload_speed with
      | some v => point.field "upload_speed" v
      | none => point
    if sinkFails then
      ⟨[point], [.sinkWrite point, .errorLog], false⟩
    else
      ⟨[point], [.sinkWrite point], false⟩
  else
    ⟨[], [], false⟩

/-- The dispatch in `run`'s loop body (lines 247-254): a `'ping'` sample
becomes `write_to_influx(ping_time=value)`, a `'speed'` sample becomes
`write_to_influx(download_speed=..., upload_speed=...)`. -/
def processMetric (m : Metric) (sinkFails : Bool) : WriteResult :=
  match m with
  | .ping v => write_to_influx (some v) none none sinkFails
  | .speed d u => write_to_influx none (some d) (some u) sinkFails

/-! ## Worker and collector steps -/

/-- One iteration of `ping_worker` (lines 198-209) including the
`while self.running` check: when `running` is false the loop exits (third
component `false`) without touching anything; otherwise it runs
`get_ping_stats` and, if a value was produced, `put`s `('ping', value)` on
the queue.  The worker's own catch-all keeps it alive on any error. -/
def ping_worker_step (self : NetworkMonitor) (now : Time) (outcome : PingOutcome) :
    NetworkMonitor × List Event × Bool :=
  if self.running then
    let (pt, self1, evs) := get_ping_stats self now outcome
    match pt with
    | some v =>
        ({ self1 with metric_queue := self1.metric_queue.put (.ping v) },
          evs ++ [.enqueue (.ping v)], true)
    | none => (self1, evs, true)
  else
    (self, [], false)

/-- One iteration of `speedtest_worker` (lines 211-225), same shape: a
sample is enqueued only when both speeds are present. -/
def speedtest_worker_step (self : NetworkMonitor) (now : Time) (outcome : SpeedOutcome) :
    NetworkMonitor × List Event × Bool :=
  if self.running then
    let (du, self1, evs) := get_speed_test self now outcome
    match du with
    | (some d, some u) =>
        ({ self1 with metric_queue := self1.metric_queue.put (.speed d u) },
          evs ++ [.enqueue (.speed d u)], true)
    | _ => (self1, evs, true)
  else
    (self, [], false)

/-- One iteration of the collector loop in `run` (lines 241-260) including
the `while self.running` check: `get` a sample from the queue with a 1 s
timeout (an `Empty` result is skipped with `continue`), then dispatch it to
`write_to_influx`.  A failed write was already caught inside
`write_to_influx`; nothing here terminates the loop. -/
def collector_step (self : NetworkMonitor) (sinkFails : Bool) :
    NetworkMonitor × List Event :=
  if self.running then
    match self.metric_queue.get with
    | none => (self, [])
    | some (m, q1) =>
        let wr := processMetric m sinkFails
        ({ self with metric_queue := q1 }, .deliver m :: wr.events)
  else
    (self, [])

/-- The `finally` block of `run` (lines 264-276): set `self.running = False`
and join each worker thread with `timeout=5` seconds.  Returns the updated
state and the two join timeouts. -/
def run_cleanup (self : NetworkMonitor) : NetworkMonitor × ℚ × ℚ :=
  ({ self with running := false }, 5, 5)

/-! ## Interleaved execution -/

/-- The three execution contexts of the program: the two worker threads
started in `run` (lines 234-238) and the main thread running the collector
loop. -/
inductive Actor
  | pingWorker
  | speedWorker
  | collector
deriving DecidableEq, Repr

/-- One scheduling choice: which context runs its next iteration, together
with the outcome the external world supplies to it. -/
inductive SysStep
  | pingTick (now : Time) (outcome : PingOutcome)
  | speedTick (now : Time) (outcome : SpeedOutcome)
  | collect (sinkFails : Bool)

/-- The execution context a step runs in. -/
def SysStep.actor : SysStep → Actor
  | .pingTick _ _ => .pingWorker
  | .speedTick _ _ => .speedWorker
  | .collect _ => .collector

/-- Effect of one step on the shared `NetworkMonitor` object. -/
def sysStep (self : NetworkMonitor) : SysStep → NetworkMonitor × List Event
  | .pingTick now outcome =>
      let (s1, evs, _) := ping_worker_step self now outcome
      (s1, evs)
  | .speedTick now outcome =>
      let (s1, evs, _) := speedtest_worker_step self now outcome
      (s1, evs)
  | .collect sinkFails => collector_step self sinkFails

/-- Run an interleaving of steps, concatenating the events performed. -/
def runTrace (self : NetworkMonitor) : List SysStep → NetworkMonitor × List Event
  | [] => (self, [])
  | s :: rest =>
      let (s1, evs) := sysStep self s
      let (s2, evs2) := runTrace s1 rest
      (s2, evs ++ evs2)

/-- A batch of 150 distinct samples, as in the spec's overflow scenario. -/
def batch150 : List Metric := (List.range 150).map fun i => Metric.ping i

/-- Three buffered samples awaiting the collector, for the
three-consecutive-sink-failures scenario. -/
def failState3 : NetworkMonitor :=
  { monitorStart with metric_queue := ⟨0, [.ping 1, .ping 2, .ping 3]⟩ }

/-- Three collector iterations, the sink failing each time. -/
def tr3 : List SysStep := [.collect true, .collect true, .collect true]

/-! ## Helper lemmas -/

theorem produceAll_items {α : Type} (xs : List α) (q : PyQueue α) :
    (produceAll q xs).items = q.items ++ xs := by
  induction xs generalizing q with
  | nil => simp [produceAll]
  | cons x xs ih =>
      simp only [produceAll, List.foldl_cons] at *
      rw [ih]
      simp [PyQueue.put]

theorem produceAll_maxsize {α : Type} (xs : List α) (q : PyQueue α) :
    (produceAll q xs).maxsize = q.maxsize := by
  induction xs generalizing q with
  | nil => rfl
  | cons x xs ih =>
      simp only [produceAll, List.foldl_cons] at *
      rw [ih]
      rfl

theorem enqueuedOf_append (a b : List Event) :
    enqueuedOf (a ++ b) = enqueuedOf a ++ enqueuedOf b := by
  simp [enqueuedOf]

theorem deliveredOf_append (a b : List Event) :
    deliveredOf (a ++ b) = deliveredOf a ++ deliveredOf b := by
  simp [deliveredOf]

/-- A worker iteration of `ping_worker` never performs a sink write: its
only effects are the probe call, error logging and a queue `put`. -/
theorem ping_worker_no_sinkWrite (self : NetworkMonitor) (now : Time)
    (o : PingOutcome) (p : Point) :
    Event.sinkWrite p ∉ (ping_worker_step self now o).2.1 := by
  by_cases hr : self.running
  · by_cases hg : pingGateOpen self.last_ping now
    · rcases o with e | ov
      · simp [ping_worker_step, get_ping_stats, hr, hg]
      · rcases ov with _ | v <;> simp [ping_worker_step, get_ping_stats, hr, hg]
    · simp [ping_worker_step, get_ping_stats, hr, hg]
  · simp [ping_worker_step, hr]

/-- A worker iteration of `speedtest_worker` never performs a sink write. -/
theorem speedtest_worker_no_sinkWrite (self : NetworkMonitor) (now : Time)
    (o : SpeedOutcome) (p : Point) :
    Event.sinkWrite p ∉ (speedtest_worker_step self now o).2.1 := by
  by_cases hr : self.running
  · by_cases hg : speedGateOpen self.last_speedtest now
    · rcases o with e | ⟨d, u⟩ <;> simp [speedtest_worker_step, get_speed_test, hr, hg]
    · simp [speedtest_worker_step, get_speed_test, hr, hg]
  · simp [speedtest_worker_step, hr]

/-- Unfolding the gate of `get_ping_stats`. -/
theorem pingGateOpen_true {l : Option Time} {now : Time}
    (h : pingGateOpen l now = true) :
    l = none ∨ ∃ lp, l = some lp ∧ PING_INTERVAL ≤ now - lp := by
  cases l with
  | none => exact Or.inl rfl
  | some lp => exact Or.inr ⟨lp, rfl, by simpa [pingGateOpen] using h⟩

/-- Unfolding the gate of `get_speed_test`. -/
theorem speedGateOpen_true {l : Option Time} {now : Time}
    (h : speedGateOpen l now = true) :
    l = none ∨ ∃ ls, l = some ls ∧ SPEEDTEST_INTERVAL ≤ now - ls := by
  cases l with
  | none => exact Or.inl rfl
  | some ls => exact Or.inr ⟨ls, rfl, by simpa [speedGateOpen] using h⟩

/-- A step by a stopped system does nothing: both workers and the collector
begin with `while self.running`. -/
theorem sysStep_stopped (self : NetworkMonitor) (h : self.running = false)
    (s : SysStep) : sysStep self s = (self, []) := by
  cases s with
  | pingTick now o => simp [sysStep, ping_worker_step, h]
  | speedTick now o => simp [sysStep, speedtest_worker_step, h]
  | collect sf => simp [sysStep, collector_step, h]

/-- A stopped system stays stopped and performs no events over any
interleaving. -/
theorem runTrace_stopped (tr : List SysStep) (self : NetworkMonitor)
    (h : self.running = false) : runTrace self tr = (self, []) := by
  induction tr with
  | nil => rfl
  | cons s rest ih => simp [runTrace, sysStep_stopped self h s, ih]

/-- The collector's dispatch performs no queue operations: its events are
only the sink write and possibly an error log. -/
theorem processMetric_no_queue_events (m : Metric) (sf : Bool) :
    enqueuedOf (processMetric m sf).events = [] ∧
    deliveredOf (processMetric m sf).events = [] := by
  cases m <;> cases sf <;> exact ⟨rfl, rfl⟩

/-- One step preserves the queue bookkeeping: the buffered items plus what
the step enqueued equal what the step delivered plus the items left
buffered. -/
theorem sysStep_queue_inv (self : NetworkMonitor) (s : SysStep) :
    self.metric_queue.items ++ enqueuedOf (sysStep self s).2 =
      deliveredOf (sysStep self s).2 ++ (sysStep self s).1.metric_queue.items := by
  cases s with
  | pingTick now o =>
      by_cases hr : self.running
      · by_cases hg : pingGateOpen self.last_ping now
        · rcases o with e | ov
          · simp [sysStep, ping_worker_step, get_ping_stats, hr, hg,
              enqueuedOf, deliveredOf]
          · rcases ov with _ | v <;>
              simp [sysStep, ping_worker_step, get_ping_stats, hr, hg,
                enqueuedOf, deliveredOf, PyQueue.put]
        · simp [sysStep, ping_worker_step, get_ping_stats, hr, hg,
            enqueuedOf, deliveredOf]
      · simp [sysStep, ping_worker_step, hr, enqueuedOf, deliveredOf]
  | speedTick now o =>
      by_cases hr : self.running
      · by_cases hg : speedGateOpen self.last_speedtest now
        · rcases o with e | ⟨d, u⟩ <;>
            simp [sysStep, speedtest_worker_step, get_speed_test, hr, hg,
              enqueuedOf, deliveredOf, PyQueue.put]
        · simp [sysStep, speedtest_worker_step, get_speed_test, hr, hg,
            enqueuedOf, deliveredOf]
      · simp [sysStep, speedtest_worker_step, hr, enqueuedOf, deliveredOf]
  | collect sf =>
      rcases self with ⟨lp, ls, ⟨ms, its⟩, r⟩
      cases r with
      | false => simp [sysStep, collector_step, enqueuedOf, deliveredOf]
      | true =>
          cases its with
          | nil => simp [sysStep, collector_step, PyQueue.get, enqueuedOf, deliveredOf]
          | cons m rest =>
              obtain ⟨he, hd⟩ := processMetric_no_queue_events m sf
              have hstep :
                  sysStep (⟨lp, ls, ⟨ms, m :: rest⟩, true⟩ : NetworkMonitor)
                      (SysStep.collect sf) =
                    (⟨lp, ls, ⟨ms, rest⟩, true⟩,
                      Event.deliver m :: (processMetric m sf).events) := by
                simp [sysStep, collector_step, PyQueue.get]
              rw [hstep]
              simp only [enqueuedOf, deliveredOf, List.filterMap_cons] at he hd ⊢
              simp [he, hd]

/-- Over any interleaving, buffered items plus everything enqueued equal
everything delivered plus the items left buffered, in order. -/
theorem runTrace_queue_inv (tr : List SysStep) (self : NetworkMonitor) :
    self.metric_queue.items ++ enqueuedOf (runTrace self tr).2 =
      deliveredOf (runTrace self tr).2 ++ (runTrace self tr).1.metric_queue.items := by
  induction tr generalizing self with
  | nil => simp [runTrace, enqueuedOf, deliveredOf]
  | cons s rest ih =>
      rcases hstep : sysStep self s with ⟨s1, evs⟩
      rcases htr : runTrace s1 rest with ⟨s2, evs2⟩
      have hrun : runTrace self (s :: rest) = (s2, evs ++ evs2) := by
        simp [runTrace, hstep, htr]
      have h1 := sysStep_queue_inv self s
      rw [hstep] at h1
      have h2 := ih s1
      rw [htr] at h2
      rw [hrun]
      simp only [enqueuedOf_append, deliveredOf_append]
      calc self.metric_queue.items ++ (enqueuedOf evs ++ enqueuedOf evs2)
          = (self.metric_queue.items ++ enqueuedOf evs) ++ enqueuedOf evs2 := by
            rw [List.append_assoc]
        _ = (deliveredOf evs ++ s1.metric_queue.items) ++ enqueuedOf evs2 := by rw [h1]
        _ = deliveredOf evs ++ (s1.metric_queue.items ++ enqueuedOf evs2) := by
            rw [List.append_assoc]
        _ = deliveredOf evs ++ (deliveredOf evs2 ++ s2.metric_queue.items) := by rw [h2]
        _ = (deliveredOf evs ++ deliveredOf evs2) ++ s2.metric_queue.items := by
            rw [List.append_assoc]

/-! ## Claims -/

/-- C1, counterexample.  The metric queue is constructed `Queue()` with the
default `maxsize = 0`, which in `queue.Queue` means *unbounded*: there is no
capacity bound of 100, and after 150 samples are produced with no consumer
draining, all 150 are still buffered and all 150 are delivered in order —
not 50 dropped and 100 delivered. -/
theorem C1_counterexample :
    monitorInit.metric_queue.maxsize = 0 ∧
    monitorInit.metric_queue.maxsize ≠ 100 ∧
    batch150.length = 150 ∧
    (produceAll monitorInit.metric_queue batch150).items.length = 150 ∧
    PyQueue.drain (produceAll monitorInit.metric_queue batch150) = batch150 := by
  have hlen : batch150.length = 150 := by
    have h1 : batch150.length = (List.range 150).length := List.length_map _ _
    rw [h1, List.length_range]
  refine ⟨rfl, by simp [monitorInit], hlen, ?_, ?_⟩
  · rw [produceAll_items]
    simpa [monitorInit] using hlen
  · rw [PyQueue.drain, produceAll_items]
    simp [monitorInit]

/-- C1, amended: the Sample Channel is `Queue()` with `maxsize = 0`, i.e.
unbounded — there is no capacity bound, so when the Collector stalls the
queue grows without limit, and for every batch of samples produced while no
consumer drains, no sample is dropped: the whole batch is delivered in
order once draining resumes. -/
theorem C1_channel_unbounded (xs : List Metric) :
    monitorInit.metric_queue.maxsize = 0 ∧
    (produceAll monitorInit.metric_queue xs).maxsize = 0 ∧
    PyQueue.drain (produceAll monitorInit.metric_queue xs) = xs := by
  refine ⟨rfl, ?_, ?_⟩
  · rw [produceAll_maxsize]; rfl
  · rw [PyQueue.drain, produceAll_items]
    simp [monitorInit]

/-- C5: a `'ping'` sample carrying value `t` makes the collector issue
exactly one sink write, whose point has exactly the single field
`ping_ms = t`. -/
theorem C5_ping_write (lp ls : Option Time) (rest : List Metric) (t : ℚ) (sf : Bool) :
    (processMetric (.ping t) sf).writeCalls =
      [⟨"network_metrics", [("ping_ms", t)]⟩] ∧
    writesOf (collector_step ⟨lp, ls, ⟨0, .ping t :: rest⟩, true⟩ sf).2 =
      [⟨"network_metrics", [("ping_ms", t)]⟩] := by
  constructor
  · cases sf <;> simp [processMetric, write_to_influx, Point.field]
  · cases sf <;>
      simp [collector_step, PyQueue.get, processMetric, write_to_influx, Point.field, writesOf]

/-- C6: a `'speed'` sample carrying `(d, u)` makes the collector issue
exactly one sink write, whose point carries exactly the two fields
`download_speed = d` and `upload_speed = u`. -/
theorem C6_speed_write (lp ls : Option Time) (rest : List Metric) (d u : ℚ) (sf : Bool) :
    (processMetric (.speed d u) sf).writeCalls =
      [⟨"network_metrics", [("download_speed", d), ("upload_speed", u)]⟩] ∧
    writesOf (collector_step ⟨lp, ls, ⟨0, .speed d u :: rest⟩, true⟩ sf).2 =
      [⟨"network_metrics", [("download_speed", d), ("upload_speed", u)]⟩] := by
  constructor
  · cases sf <;> simp [processMetric, write_to_influx, Point.field]
  · cases sf <;>
      simp [collector_step, PyQueue.get, processMetric, write_to_influx, Point.field, writesOf]

/-- C9: when the underlying measurement raises (the external call raises,
or — for ping — returns `None` so that `None * 1000` raises `TypeError`),
the probe method leaves the object state, in particular `last_ping` /
`last_speedtest`, unchanged: the timestamp assignment comes only after the
measurement completed. -/
theorem C9_probe_error_state (self : NetworkMonitor) (now : Time) :
    (get_ping_stats self now (Except.error ())).2.1 = self ∧
    (get_ping_stats self now (Except.ok none)).2.1 = self ∧
    (get_speed_test self now (Except.error ())).2.1 = self := by
  refine ⟨?_, ?_, ?_⟩ <;>
    [unfold get_ping_stats; unfold get_ping_stats; unfold get_speed_test] <;>
    split <;> rfl

/-- C10: a `write_to_influx` call with all three arguments `None` issues no
write call to the sink, logs nothing, and returns normally. -/
theorem C10_all_none_no_write (sf : Bool) :
    write_to_influx none none none sf = ⟨[], [], false⟩ := rfl

/-- C2: in every step of the system, a sink write is performed only by the
collector loop in `run`, never by a worker iteration: the single-writer
discipline. -/
theorem C2_single_writer (self : NetworkMonitor) (s : SysStep) (p : Point)
    (h : Event.sinkWrite p ∈ (sysStep self s).2) :
    SysStep.actor s = Actor.collector := by
  cases s with
  | pingTick now o =>
      exact absurd h (by simpa [sysStep] using ping_worker_no_sinkWrite self now o p)
  | speedTick now o =>
      exact absurd h (by simpa [sysStep] using speedtest_worker_no_sinkWrite self now o p)
  | collect sf => rfl

/-- A state with one buffered ping sample, main thread running. -/
def w2self : NetworkMonitor := { monitorStart with metric_queue := ⟨0, [.ping 5]⟩ }

/-- The point that sample turns into. -/
def w2point : Point := ⟨"network_metrics", [("ping_ms", 5)]⟩

theorem C2_single_writer_witness :
    Event.sinkWrite w2point ∈ (sysStep w2self (SysStep.collect false)).2 ∧
    SysStep.actor (SysStep.collect false) = Actor.collector :=
  ⟨by simp [sysStep, collector_step, w2self, w2point, monitorStart, monitorInit,
      PyQueue.get, processMetric, write_to_influx, Point.field],
   C2_single_writer w2self (SysStep.collect false) w2point
     (by simp [sysStep, collector_step, w2self, w2point, monitorStart, monitorInit,
        PyQueue.get, processMetric, write_to_influx, Point.field])⟩

/-- C3: a probe measurement is invoked only when its interval gate is open —
for ping, only when `last_ping` is unset or at least `PING_INTERVAL`
seconds old; for the speedtest, only when `last_speedtest` is unset or at
least `SPEEDTEST_INTERVAL` seconds old — and when the gate is closed the
call is a pure skip: no value, no state change, no events. -/
theorem C3_interval_gate (self : NetworkMonitor) (now : Time)
    (pout : PingOutcome) (sout : SpeedOutcome) :
    (Event.probePing ∈ (get_ping_stats self now pout).2.2 →
      self.last_ping = none ∨
        ∃ lp, self.last_ping = some lp ∧ PING_INTERVAL ≤ now - lp) ∧
    (Event.probeSpeed ∈ (get_speed_test self now sout).2.2 →
      self.last_speedtest = none ∨
        ∃ ls, self.last_speedtest = some ls ∧ SPEEDTEST_INTERVAL ≤ now - ls) ∧
    (pingGateOpen self.last_ping now = false →
      get_ping_stats self now pout = (none, self, [])) ∧
    (speedGateOpen self.last_speedtest now = false →
      get_speed_test self now sout = ((none, none), self, [])) := by
  refine ⟨?_, ?_, ?_, ?_⟩
  · intro h
    by_cases hg : pingGateOpen self.last_ping now
    · exact pingGateOpen_true hg
    · simp [get_ping_stats, hg] at h
  · intro h
    by_cases hg : speedGateOpen self.last_speedtest now
    · exact speedGateOpen_true hg
    · simp [get_speed_test, hg] at h
  · intro hg
    simp [get_ping_stats, hg]
  · intro hg
    simp [get_speed_test, hg]

/-- A state in which both probes ran at time 0, so both gates are closed
shortly after. -/
def gateClosedState : NetworkMonitor :=
  { monitorInit with last_ping := some 0, last_speedtest := some 0 }

theorem C3_interval_gate_witness :
    (Event.probePing ∈ (get_ping_stats monitorInit 0 (Except.ok (some 1))).2.2 ∧
      (monitorInit.last_ping = none ∨
        ∃ lp, monitorInit.last_ping = some lp ∧ PING_INTERVAL ≤ 0 - lp)) ∧
    (Event.probeSpeed ∈ (get_speed_test monitorInit 0 (Except.ok (1, 2))).2.2 ∧
      (monitorInit.last_speedtest = none ∨
        ∃ ls, monitorInit.last_speedtest = some ls ∧ SPEEDTEST_INTERVAL ≤ 0 - ls)) ∧
    (pingGateOpen gateClosedState.last_ping 5 = false ∧
      get_ping_stats gateClosedState 5 (Except.ok (some 1)) =
        (none, gateClosedState, [])) ∧
    (speedGateOpen gateClosedState.last_speedtest 30 = false ∧
      get_speed_test gateClosedState 30 (Except.ok (1, 2)) =
        ((none, none), gateClosedState, [])) :=
  ⟨⟨by simp [get_ping_stats, pingGateOpen, monitorInit],
    (C3_interval_gate monitorInit 0 (Except.ok (some 1)) (Except.ok (1, 2))).1
      (by simp [get_ping_stats, pingGateOpen, monitorInit])⟩,
   ⟨by simp [get_speed_test, speedGateOpen, monitorInit],
    (C3_interval_gate monitorInit 0 (Except.ok (some 1)) (Except.ok (1, 2))).2.1
      (by simp [get_speed_test, speedGateOpen, monitorInit])⟩,
   ⟨by norm_num [pingGateOpen, PING_INTERVAL, gateClosedState, monitorInit],
    (C3_interval_gate gateClosedState 5 (Except.ok (some 1)) (Except.ok (1, 2))).2.2.1
      (by norm_num [pingGateOpen, PING_INTERVAL, gateClosedState, monitorInit])⟩,
   ⟨by norm_num [speedGateOpen, SPEEDTEST_INTERVAL, gateClosedState, monitorInit],
    (C3_interval_gate gateClosedState 30 (Except.ok (some 1)) (Except.ok (1, 2))).2.2.2
      (by norm_num [speedGateOpen, SPEEDTEST_INTERVAL, gateClosedState, monitorInit])⟩⟩

/-- C4: no steady-state error is fatal.  A probe failure yields no value
and is logged locally: whenever the measurement was invoked (gate open) and
raised — including ping's `None * 1000` `TypeError` — the call performs
exactly one error log; the worker emits no sample and keeps looping;
`write_to_influx` never lets an exception escape, and a failed sink write
produces exactly one error log and the sample is discarded; three
consecutive sink failures produce three error logs, the collector state is
still `running` and the failed samples are gone from the queue (no
requeue). -/
theorem C4_errors_nonfatal (self : NetworkMonitor) (now : Time) (v : ℚ)
    (pt ds us : Option ℚ) (sf : Bool) :
    (get_ping_stats self now (Except.error ())).1 = none ∧
    ((get_ping_stats self now (Except.error ())).2.2 =
      if pingGateOpen self.last_ping now then [Event.probePing, Event.errorLog] else []) ∧
    ((get_ping_stats self now (Except.ok none)).2.2 =
      if pingGateOpen self.last_ping now then [Event.probePing, Event.errorLog] else []) ∧
    (get_speed_test self now (Except.error ())).1 = (none, none) ∧
    ((get_speed_test self now (Except.error ())).2.2 =
      if speedGateOpen self.last_speedtest now then [Event.probeSpeed, Event.errorLog] else []) ∧
    (ping_worker_step { self with running := true } now (Except.error ())).2.2 = true ∧
    enqueuedOf (ping_worker_step { self with running := true } now (Except.error ())).2.1 = [] ∧
    (speedtest_worker_step { self with running := true } now (Except.error ())).2.2 = true ∧
    enqueuedOf (speedtest_worker_step { self with running := true } now (Except.error ())).2.1 = [] ∧
    (write_to_influx pt ds us sf).raised = false ∧
    errorLogsOf (write_to_influx (some v) none none true).events = 1 ∧
    errorLogsOf (runTrace failState3 tr3).2 = 3 ∧
    (runTrace failState3 tr3).1.running = true ∧
    (runTrace failState3 tr3).1.metric_queue.items = [] := by
  refine ⟨?_, ?_, ?_, ?_, ?_, ?_, ?_, ?_, ?_, ?_, rfl, ?_, ?_, ?_⟩
  · by_cases hg : pingGateOpen self.last_ping now <;> simp [get_ping_stats, hg]
  · by_cases hg : pingGateOpen self.last_ping now <;> simp [get_ping_stats, hg]
  · by_cases hg : pingGateOpen self.last_ping now <;> simp [get_ping_stats, hg]
  · by_cases hg : speedGateOpen self.last_speedtest now <;> simp [get_speed_test, hg]
  · by_cases hg : speedGateOpen self.last_speedtest now <;> simp [get_speed_test, hg]
  · by_cases hg : pingGateOpen self.last_ping now <;>
      simp [ping_worker_step, get_ping_stats, hg]
  · by_cases hg : pingGateOpen self.last_ping now <;>
      simp [ping_worker_step, get_ping_stats, hg, enqueuedOf]
  · by_cases hg : speedGateOpen self.last_speedtest now <;>
      simp [speedtest_worker_step, get_speed_test, hg]
  · by_cases hg : speedGateOpen self.last_speedtest now <;>
      simp [speedtest_worker_step, get_speed_test, hg, enqueuedOf]
  · rcases pt with _ | v1 <;> rcases ds with _ | v2 <;> rcases us with _ | v3 <;>
      cases sf <;> rfl
  · simp [runTrace, sysStep, collector_step, failState3, tr3, monitorStart, monitorInit,
      PyQueue.get, processMetric, write_to_influx, Point.field, errorLogsOf,
      List.filter, Event.isErrorLog]
  · simp [runTrace, sysStep, collector_step, failState3, tr3, monitorStart, monitorInit,
      PyQueue.get, processMetric, write_to_influx, Point.field]
  · simp [runTrace, sysStep, collector_step, failState3, tr3, monitorStart, monitorInit,
      PyQueue.get, processMetric, write_to_influx, Point.field]

/-- C8: after the `finally` block of `run` clears the stop flag,
`running` is false, each worker's next iteration checks the flag, performs
nothing — in particular starts no probe — and exits its loop, any further
interleaving of steps performs no events at all, and the controller joins
each worker thread with the bounded timeout of 5 seconds. -/
theorem C8_shutdown (self : NetworkMonitor) (now : Time) (pout : PingOutcome)
    (sout : SpeedOutcome) (tr : List SysStep) :
    (run_cleanup self).1.running = false ∧
    ping_worker_step (run_cleanup self).1 now pout = ((run_cleanup self).1, [], false) ∧
    speedtest_worker_step (run_cleanup self).1 now sout = ((run_cleanup self).1, [], false) ∧
    runTrace (run_cleanup self).1 tr = ((run_cleanup self).1, []) ∧
    (run_cleanup self).2 = (5, 5) := by
  refine ⟨rfl, ?_, ?_, ?_, rfl⟩
  · simp [ping_worker_step, run_cleanup]
  · simp [speedtest_worker_step, run_cleanup]
  · exact runTrace_stopped tr _ rfl

/-- C7: per-producer FIFO.  Starting from `run`'s initial state (empty
queue), over any interleaving of worker and collector steps the samples the
collector received, followed by the samples still buffered, are exactly the
samples enqueued, in emission order — and the same holds restricted to the
ping worker's samples alone and to the speedtest worker's samples alone, so
each producer's samples are received in the order it emitted them. -/
theorem C7_fifo_order (tr : List SysStep) :
    deliveredOf (runTrace monitorStart tr).2 ++
        (runTrace monitorStart tr).1.metric_queue.items =
      enqueuedOf (runTrace monitorStart tr).2 ∧
    ((deliveredOf (runTrace monitorStart tr).2).filter Metric.isPing ++
        ((runTrace monitorStart tr).1.metric_queue.items).filter Metric.isPing =
      (enqueuedOf (runTrace monitorStart tr).2).filter Metric.isPing) ∧
    ((deliveredOf (runTrace monitorStart tr).2).filter Metric.isSpeed ++
        ((runTrace monitorStart tr).1.metric_queue.items).filter Metric.isSpeed =
      (enqueuedOf (runTrace monitorStart tr).2).filter Metric.isSpeed) := by
  have h := runTrace_queue_inv tr monitorStart
  have h0 : monitorStart.metric_queue.items = [] := rfl
  rw [h0, List.nil_append] at h
  refine ⟨h.symm, ?_, ?_⟩
  · rw [h, List.filter_append]
  · rw [h, List.filter_append]

end Netmon
